import Mathlib

/-!
Shallow embedding of `daycare_planner.py` (Daycare Planner).

The script reads babysitting rows (week number, date, caregiver name,
comments) from a CSV export, builds an iCalendar invite per valid row
and emails it over SMTP.  The embedding below translates the pure
row-to-event transformation (`parse_date`, `build_ics_event`), the
recipient computation, the EMAIL_MAP JSON decoding and the per-row
orchestration loop of `main` into executable Lean definitions.  I/O
(HTTP fetch, SMTP traffic, prints) is made explicit as a trace of
`Effect`s produced by the loop, and exceptions become `Option`/error
values: a Python exception that is not caught aborts the loop and
surfaces as an error result.
-/

/-! ## Calendar dates (model of `datetime.date` arithmetic) -/

/-- A Gregorian calendar date, the result type of `parse_date`
(`datetime.date` in the source). -/
structure Date where
  year : Nat
  month : Nat
  day : Nat
deriving DecidableEq, Repr

/-- Gregorian leap-year rule, as used by `datetime.date`. -/
def isLeapYear (y : Nat) : Bool :=
  y % 4 = 0 && (y % 100 ≠ 0 || y % 400 = 0)

/-- Number of days of a month in a given year (`datetime` calendar). -/
def daysInMonth (y m : Nat) : Nat :=
  if m = 2 then (if isLeapYear y then 29 else 28)
  else if m = 4 ∨ m = 6 ∨ m = 9 ∨ m = 11 then 30
  else 31

/-- Construct a date, validating ranges the way `datetime.date(y, m, d)`
does (an invalid combination raises `ValueError`, here `none`). -/
def mkValidDate (y m d : Nat) : Option Date :=
  if 1 ≤ m ∧ m ≤ 12 ∧ 1 ≤ d ∧ d ≤ daysInMonth y m then some ⟨y, m, d⟩ else none

/-- `date + datetime.timedelta(days=1)`: the successor calendar day,
rolling over month and year ends. -/
def nextDay (d : Date) : Date :=
  if d.day < daysInMonth d.year d.month then ⟨d.year, d.month, d.day + 1⟩
  else if d.month < 12 then ⟨d.year, d.month + 1, 1⟩
  else ⟨d.year + 1, 1, 1⟩

/-- Left-pad a numeral to two digits (`strftime` `%m`, `%d`). -/
def pad2 (n : Nat) : String :=
  if n < 10 then "0" ++ toString n else toString n

/-- Left-pad a numeral to four digits (`strftime` `%Y`). -/
def pad4 (n : Nat) : String :=
  if n < 10 then "000" ++ toString n
  else if n < 100 then "00" ++ toString n
  else if n < 1000 then "0" ++ toString n
  else toString n

/-- `date.strftime("%Y%m%d")`: the compact all-day date stamp used in
the DTSTART and DTEND lines. -/
def ymd (d : Date) : String :=
  pad4 d.year ++ pad2 d.month ++ pad2 d.day

/-! ## `parse_date` (model of `dateutil.parser.parse(s, dayfirst=True, fuzzy=False)`)

The script delegates to the third-party `dateutil` parser with
`dayfirst=True` and `fuzzy=False`.  The model below reproduces its
behaviour on the date grammar the sheet uses: three date tokens
separated by `/`, `-`, `.`, spaces or commas, either all numeric
(resolved with the `resolve_ymd` day-first rules of dateutil) or with
a spelled-out English month name in first or second position.  Any
other string (in particular one with no recognizable date token, such
as `not-a-date`) fails, matching the `ParserError` (a `ValueError`)
raised by `dateutil` — `fuzzy=False` means garbage is not skipped. -/

/-- ASCII lower-casing of one character. -/
def lowerChar (c : Char) : Char :=
  if 65 ≤ c.toNat ∧ c.toNat ≤ 90 then Char.ofNat (c.toNat + 32) else c

/-- ASCII lower-casing of a string (`str.lower()` on the names that
occur in dates). -/
def lowerStr (t : String) : String := String.mk (t.data.map lowerChar)

/-- dateutil month-name table (full names and standard abbreviations),
case-insensitive. -/
def monthOf (t : String) : Option Nat :=
  let s := lowerStr t
  if s = "jan" ∨ s = "january" then some 1
  else if s = "feb" ∨ s = "february" then some 2
  else if s = "mar" ∨ s = "march" then some 3
  else if s = "apr" ∨ s = "april" then some 4
  else if s = "may" then some 5
  else if s = "jun" ∨ s = "june" then some 6
  else if s = "jul" ∨ s = "july" then some 7
  else if s = "aug" ∨ s = "august" then some 8
  else if s = "sep" ∨ s = "sept" ∨ s = "september" then some 9
  else if s = "oct" ∨ s = "october" then some 10
  else if s = "nov" ∨ s = "november" then some 11
  else if s = "dec" ∨ s = "december" then some 12
  else none

/-- Separator characters dateutil treats as punctuation in these
formats. -/
def isSep (c : Char) : Bool :=
  c = '/' || c = '-' || c = '.' || c = ' ' || c = ','

/-- Tokenizer worker: split a character list at separators, the second
argument holding the (reversed) characters of the token being read. -/
def tokenizeAux : List Char → List Char → List String
  | [], acc => if acc = [] then [] else [String.mk acc.reverse]
  | c :: cs, acc =>
    if isSep c then
      (if acc = [] then tokenizeAux cs []
       else String.mk acc.reverse :: tokenizeAux cs [])
    else tokenizeAux cs (c :: acc)

/-- Split a date string into its tokens, dropping separators. -/
def dateTokens (s : String) : List String := tokenizeAux s.data []

/-- A purely numeric token and its value (decimal). -/
def numToken (t : String) : Option Nat :=
  match t.data with
  | [] => none
  | cs =>
    if cs.all Char.isDigit then
      some (cs.foldl (fun n c => 10 * n + (c.toNat - 48)) 0)
    else none

/-- dateutil two-digit year conversion (`convertyear`) anchored at the
current century: a two-digit year is placed in 2000–2099 and pulled
back a century when it lands 50 or more years in the future. -/
def convertYear (c : Nat) : Nat :=
  if c < 100 then (if 2075 ≤ 2000 + c then 1900 + c else 2000 + c) else c

/-- `resolve_ymd` of dateutil for three all-numeric tokens with
`dayfirst=True, yearfirst=False`:
  * first token above 31 → it is the year; the day then comes before
    the month unless the last token cannot be a month;
  * otherwise day-month-year, unless the first token must be a month
    (second token above 12 and first token at most 12). -/
def resolveNumeric (a b c : Nat) : Option Date :=
  if 31 < a then
    if c ≤ 12 then mkValidDate (convertYear a) c b
    else mkValidDate (convertYear a) b c
  else if 12 < a ∨ b ≤ 12 then
    mkValidDate (convertYear c) b a
  else
    mkValidDate (convertYear c) a b

/-- `resolve_ymd` with the month name in first position
(`March 24, 2025`): the larger remaining token is the year. -/
def resolveMonthFirst (m n1 n2 : Nat) : Option Date :=
  if 31 < n1 then mkValidDate (convertYear n1) m n2
  else mkValidDate (convertYear n2) m n1

/-- `resolve_ymd` with the month name in second position
(`24 March 2025`). -/
def resolveMonthSecond (n1 m n2 : Nat) : Option Date :=
  if 31 < n1 then mkValidDate (convertYear n1) m n2
  else mkValidDate (convertYear n2) m n1

/-- `parse_date` of `daycare_planner.py`: parse a free-form date string
into a calendar date.  Models
`dateutil.parser.parse(date_str, dayfirst=True, fuzzy=False).date()`
on the three-token date grammar described above; a failing parse
(`ValueError` in Python) is `none`. -/
def parse_date (date_str : String) : Option Date :=
  match dateTokens date_str with
  | [ta, tb, tc] =>
    match numToken ta, numToken tb, numToken tc with
    | some a, some b, some c => resolveNumeric a b c
    | _, _, _ =>
      match monthOf ta, numToken tb, numToken tc with
      | some m, some n1, some n2 => resolveMonthFirst m n1 n2
      | _, _, _ =>
        match numToken ta, monthOf tb, numToken tc with
        | some n1, some m, some n2 => resolveMonthSecond n1 m n2
        | _, _, _ => none
  | _ => none


/-! ## `build_ics_event`

The Python function interpolates two values that are not arguments:
a fresh UUID (`uuid.uuid4()`) and the generation timestamp
(`datetime.datetime.utcnow()`).  The embedding makes this explicit by
passing them as additional `uid` and `dtstamp` arguments: one Python
call corresponds to one Lean application at the freshly drawn values.
The Python `ValueError` escaping from the inner `parse_date` call
becomes a `none` result. -/

/-- Truthiness of an optional string, as Python sees an argument that
may be `None` or the empty string. -/
def truthy : Option String → Bool
  | none => false
  | some s => s != ""

/-- The caregiver attendee line
(`ATTENDEE;CN={oppas_name};RSVP=TRUE:MAILTO:{babysitter_email}`). -/
def caregiverAttendee (oppas_name babysitter_email : String) : String :=
  "ATTENDEE;CN=" ++ oppas_name ++ ";RSVP=TRUE:MAILTO:" ++ babysitter_email

/-- The default-recipient attendee line
(`ATTENDEE;CN=Planner User;RSVP=TRUE:MAILTO:{user_email}`). -/
def userAttendee (user_email : String) : String :=
  "ATTENDEE;CN=Planner User;RSVP=TRUE:MAILTO:" ++ user_email

/-- The attendee lines appended by `build_ics_event`: the babysitter
when her address is truthy, then the user when truthy and different
from the babysitter address (the duplicate-avoidance check). -/
def attendee_lines (oppas_name : String)
    (babysitter_email user_email : Option String) : List String :=
  (if truthy babysitter_email then
     [caregiverAttendee oppas_name (babysitter_email.getD "")]
   else [])
  ++ (if truthy user_email ∧ user_email ≠ babysitter_email then
        [userAttendee (user_email.getD "")]
      else [])

/-- The full line list of the iCalendar document built by
`build_ics_event` for an already-parsed event date `d`.  Line 8 is
DTSTART (the parsed date) and line 9 is DTEND (`d` plus one day). -/
def ics_body (d : Date) (oppas_name description organizer_email : String)
    (babysitter_email user_email : Option String)
    (uid dtstamp : String) : List String :=
  ["BEGIN:VCALENDAR",
   "PRODID:-//Daycare Planner//EN",
   "VERSION:2.0",
   "CALSCALE:GREGORIAN",
   "METHOD:REQUEST",
   "BEGIN:VEVENT",
   "UID:" ++ uid ++ "@daycare-planner",
   "DTSTAMP:" ++ dtstamp,
   "DTSTART;VALUE=DATE:" ++ ymd d,
   "DTEND;VALUE=DATE:" ++ ymd (nextDay d),
   "SUMMARY:Oppas – " ++ oppas_name,
   "DESCRIPTION:" ++ description,
   "ORGANIZER:MAILTO:" ++ organizer_email]
  ++ attendee_lines oppas_name babysitter_email user_email
  ++ ["END:VEVENT",
      "END:VCALENDAR"]

/-- `build_ics_event` up to the final join: parse the date, then emit
the line list.  `none` models the `ValueError` raised by a failing
`parse_date`. -/
def build_ics_lines (date_str oppas_name description organizer_email : String)
    (babysitter_email user_email : Option String)
    (uid dtstamp : String) : Option (List String) :=
  (parse_date date_str).map fun d =>
    ics_body d oppas_name description organizer_email
      babysitter_email user_email uid dtstamp

/-- `"\r\n".join(lines)`. -/
def crlfJoin (lines : List String) : String := String.intercalate "\r\n" lines

/-- `build_ics_event` of `daycare_planner.py`: the serialized RFC5545
invitation, or `none` when the date string does not parse. -/
def build_ics_event (date_str oppas_name description organizer_email : String)
    (babysitter_email user_email : Option String)
    (uid dtstamp : String) : Option String :=
  (build_ics_lines date_str oppas_name description organizer_email
    babysitter_email user_email uid dtstamp).map crlfJoin

/-! ## The per-row loop of `main` -/

/-- One CSV record as `csv.DictReader` hands it to the loop: the three
columns the loop reads, each possibly absent. -/
structure Row where
  datum : Option String
  oppas : Option String
  comments : Option String
deriving DecidableEq, Repr

/-- Python `repr` of a string (as printed inside a list); quoting
suffices for the addresses at hand. -/
def pyStrRepr (s : String) : String := "'" ++ s ++ "'"

/-- Python `repr` of a list of strings, as interpolated by
`print(f"... to {recipients}")`. -/
def pyListRepr (l : List String) : String :=
  "[" ++ String.intercalate ", " (l.map pyStrRepr) ++ "]"

/-- `dict.get` on the dictionary built from the EMAIL_MAP JSON object:
later duplicate keys overwrite earlier ones, as in Python. -/
def pyDictGet (m : List (String × String)) (k : String) : Option String :=
  match m with
  | [] => none
  | (k2, v) :: rest =>
    match pyDictGet rest k with
    | some v2 => some v2
    | none => if k = k2 then some v else none

/-- The observable actions of one run: stdout prints, the CSV fetch,
SMTP session management and `sendmail` calls. -/
inductive Effect where
  | log (msg : String)
  | fetch (url : String)
  | smtpConnect (host : String) (port : Int)
  | send (sender : String) (recipients : List String) (ics : String)
  | smtpQuit
deriving DecidableEq, Repr

/-- The read-only state the loop closes over: the decoded EMAIL_MAP,
USER_EMAIL and the SMTP login used as organizer and sender. -/
structure LoopCfg where
  email_map : List (String × String)
  user_email : Option String
  smtp_username : String
deriving Repr

/-- The recipient list assembled in `main`: the babysitter address when
truthy, then the user address when truthy and not already present. -/
def recipientsOf (babysitter_email user_email : Option String) : List String :=
  let r1 := if truthy babysitter_email then [babysitter_email.getD ""] else []
  if truthy user_email ∧ ¬ (user_email.getD "") ∈ r1 then r1 ++ [user_email.getD ""]
  else r1

/-- The `for row in records` loop of `main`.  `gens` supplies the
(uuid, utcnow-stamp) pair drawn by each `build_ics_event` call, and
`sends` the outcome of each `sendmail` call (`some exc` raises a
transport exception with text `exc`).  The result is the trace of
effects together with an abort flag: `true` means an exception escaped
the loop (only `parse_date` can raise one that is not caught), so the
remaining rows were never reached and `smtp_client.quit()` never ran. -/
def processRows (cfg : LoopCfg) :
    List Row → List (String × String) → List (Option String) →
    List Effect × Bool
  | [], _, _ => ([], false)
  | r :: rs, gens, sends =>
    if ¬ truthy r.datum ∨ ¬ truthy r.oppas then
      let rest := processRows cfg rs gens sends
      (Effect.log "Skipping row missing required fields" :: rest.1, rest.2)
    else
      let date_str := r.datum.getD ""
      let oppas_name := r.oppas.getD ""
      let description := r.comments.getD ""
      let babysitter_email := pyDictGet cfg.email_map oppas_name
      let uid := (gens.headD ("", "")).1
      let dtstamp := (gens.headD ("", "")).2
      match build_ics_event date_str oppas_name description cfg.smtp_username
          babysitter_email cfg.user_email uid dtstamp with
      | none => ([], true)
      | some ics =>
        let recipients := recipientsOf babysitter_email cfg.user_email
        if recipients = [] then
          let rest := processRows cfg rs gens.tail sends
          (Effect.log ("No recipients for " ++ oppas_name ++ "; skipping")
             :: rest.1, rest.2)
        else
          match sends.headD none with
          | none =>
            let rest := processRows cfg rs gens.tail sends.tail
            (Effect.send cfg.smtp_username recipients ics
               :: Effect.log ("Sent invite for " ++ oppas_name ++ " on "
                    ++ date_str ++ " to " ++ pyListRepr recipients)
               :: rest.1, rest.2)
          | some exc =>
            let rest := processRows cfg rs gens.tail sends.tail
            (Effect.log ("Failed to send invite for " ++ oppas_name ++ " on "
                 ++ date_str ++ ": " ++ exc)
               :: rest.1, rest.2)

/-! ## EMAIL_MAP decoding (model of `json.loads` on flat objects)

`main` decodes the optional `EMAIL_MAP` variable with `json.loads`,
turning a `JSONDecodeError` into `ValueError`.  The decoder below
models `json.loads` restricted to the documented shape of the value: a
flat JSON object with string keys and string values (the caregiver
name to address map).  Escapes translate the common short forms; a
syntactically ill-formed input is `none`. -/

/-- JSON insignificant whitespace skipping. -/
def jsonSkipWs : List Char → List Char
  | [] => []
  | c :: cs =>
    if c = ' ' ∨ c = '\t' ∨ c = '\n' ∨ c = '\r' then jsonSkipWs cs else c :: cs

/-- Translation of a short JSON escape character. -/
def jsonEsc (c : Char) : Char :=
  if c = 'n' then '\n' else if c = 't' then '\t' else if c = 'r' then '\r'
  else c

/-- Scan a JSON string body after its opening quote, returning the
decoded text and the remaining input. -/
def jsonStr : List Char → Option (String × List Char)
  | [] => none
  | '"' :: cs => some ("", cs)
  | '\\' :: e :: cs =>
    (jsonStr cs).map fun p => (String.mk [jsonEsc e] ++ p.1, p.2)
  | '\\' :: [] => none
  | c :: cs => (jsonStr cs).map fun p => (String.mk [c] ++ p.1, p.2)

/-- Parse the members of a JSON object (after the opening brace, at
least one member), consuming the closing brace.  Fueled by the input
length. -/
def jsonMembers : Nat → List Char → Option (List (String × String) × List Char)
  | 0, _ => none
  | fuel + 1, cs =>
    match jsonSkipWs cs with
    | '"' :: cs1 =>
      match jsonStr cs1 with
      | none => none
      | some (k, cs2) =>
        match jsonSkipWs cs2 with
        | ':' :: cs3 =>
          match jsonSkipWs cs3 with
          | '"' :: cs4 =>
            match jsonStr cs4 with
            | none => none
            | some (v, cs5) =>
              match jsonSkipWs cs5 with
              | ',' :: cs6 =>
                (jsonMembers fuel cs6).map fun p => ((k, v) :: p.1, p.2)
              | '}' :: cs6 => some ([(k, v)], cs6)
              | _ => none
          | _ => none
        | _ => none
    | _ => none

/-- `json.loads` on a flat string-to-string JSON object; `none` is the
`JSONDecodeError` case. -/
def json_loads_obj (s : String) : Option (List (String × String)) :=
  match jsonSkipWs s.data with
  | '{' :: cs =>
    (match jsonSkipWs cs with
     | '}' :: cs2 => if jsonSkipWs cs2 = [] then some [] else none
     | _ =>
       match jsonMembers (s.length + 1) cs with
       | some (m, rest) => if jsonSkipWs rest = [] then some m else none
       | none => none)
  | _ => none


/-! ## `main` -/

/-- Strip trailing whitespace from a character list. -/
def jsonSkipWsRight (cs : List Char) : List Char :=
  (jsonSkipWs cs.reverse).reverse

/-- Python `int()` on a string: optional surrounding whitespace, an
optional sign, then decimal digits; anything else raises `ValueError`
(`none`). -/
def pyInt (s : String) : Option Int :=
  match jsonSkipWs s.data with
  | '-' :: cs =>
    (match numToken (String.mk (jsonSkipWsRight cs)) with
     | some n => some (-(n : Int))
     | none => none)
  | '+' :: cs =>
    (match numToken (String.mk (jsonSkipWsRight cs)) with
     | some n => some (n : Int)
     | none => none)
  | cs =>
    match numToken (String.mk (jsonSkipWsRight cs)) with
    | some n => some (n : Int)
    | none => none

/-- The uncaught exceptions `main` can raise during configuration and
the loop. -/
inductive MainError where
  | environmentError (msg : String)
  | valueError (msg : String)
deriving DecidableEq, Repr

/-- The environment variables `main` reads (`os.environ.get`). -/
structure Env where
  CSV_URL : Option String
  USER_EMAIL : Option String
  EMAIL_MAP : Option String
  SMTP_HOST : Option String
  SMTP_PORT : Option String
  SMTP_USERNAME : Option String
  SMTP_PASSWORD : Option String
deriving Repr

/-- `main` of `daycare_planner.py` as a function of the environment,
the records the CSV fetch would return, and the per-call outcomes of
the uuid/clock draws and `sendmail` calls.  The result is the trace of
observable effects in program order paired with the uncaught exception
(if any); an error before the `fetch` effect models an abort before
any row is fetched. -/
def mainModel (env : Env) (records : List Row)
    (gens : List (String × String)) (sends : List (Option String)) :
    List Effect × Option MainError :=
  if ¬ truthy env.CSV_URL then
    ([], some (.environmentError "CSV_URL must be set"))
  else
    let email_map_str := env.EMAIL_MAP.getD "{}"
    match json_loads_obj email_map_str with
    | none =>
      ([], some (.valueError "EMAIL_MAP environment variable must be valid JSON"))
    | some email_map =>
      let smtp_host := env.SMTP_HOST.getD "smtp.gmail.com"
      match pyInt (env.SMTP_PORT.getD "587") with
      | none => ([], some (.valueError "invalid literal for int"))
      | some smtp_port =>
        if ¬ truthy env.SMTP_USERNAME ∨ ¬ truthy env.SMTP_PASSWORD then
          ([], some (.environmentError "SMTP_USERNAME and SMTP_PASSWORD must be set"))
        else
          let smtp_username := env.SMTP_USERNAME.getD ""
          let loop :=
            processRows ⟨email_map, env.USER_EMAIL, smtp_username⟩ records gens sends
          if loop.2 then
            (Effect.fetch (env.CSV_URL.getD "")
               :: Effect.smtpConnect smtp_host smtp_port :: loop.1,
             some (.valueError "Unknown string format"))
          else
            (Effect.fetch (env.CSV_URL.getD "")
               :: Effect.smtpConnect smtp_host smtp_port
               :: (loop.1 ++ [Effect.smtpQuit]),
             none)

/-! ## Helper definitions for the theorems -/

/-- The line list with the UID and DTSTAMP lines (positions 6 and 7 of
the fixed header) removed: what remains of an invite once the per-call
uuid draw and clock reading are discarded. -/
def stripVolatile (lines : List String) : List String :=
  lines.take 6 ++ lines.drop 8

/-! ## Claims -/

/-- C3: `parse_date` maps "24/03/2025", "2025-03-24" and
"March 24, 2025" to the same calendar date, 24 March 2025, preferring
the day-before-month reading of ambiguous numeric forms (here
"03/04/2025" is 3 April), and fails with a parse error on
"not-a-date". -/
theorem parse_date_formats_agree :
    parse_date "24/03/2025" = some ⟨2025, 3, 24⟩ ∧
    parse_date "2025-03-24" = some ⟨2025, 3, 24⟩ ∧
    parse_date "March 24, 2025" = some ⟨2025, 3, 24⟩ ∧
    parse_date "03/04/2025" = some ⟨2025, 4, 3⟩ ∧
    parse_date "not-a-date" = none :=
  ⟨rfl, rfl, rfl, rfl, rfl⟩

/-- C2: for every row input whose date string parses (in any accepted
format), the event built by `build_ics_event` carries a DTSTART line
holding the parsed date and a DTEND line holding exactly the next
calendar day. -/
theorem build_ics_event_end_is_start_plus_one
    (date_str oppas_name description organizer_email : String)
    (babysitter_email user_email : Option String) (uid dtstamp : String)
    (d : Date) (h : parse_date date_str = some d) :
    build_ics_lines date_str oppas_name description organizer_email
        babysitter_email user_email uid dtstamp =
      some (ics_body d oppas_name description organizer_email
        babysitter_email user_email uid dtstamp) ∧
    (ics_body d oppas_name description organizer_email
        babysitter_email user_email uid dtstamp)[8]? =
      some ("DTSTART;VALUE=DATE:" ++ ymd d) ∧
    (ics_body d oppas_name description organizer_email
        babysitter_email user_email uid dtstamp)[9]? =
      some ("DTEND;VALUE=DATE:" ++ ymd (nextDay d)) := by
  refine ⟨?_, rfl, rfl⟩
  simp only [build_ics_lines, h, Option.map_some']

/-- Witness for C2 at the spec scenario date "01/04/2025". -/
theorem build_ics_event_end_is_start_plus_one_witness :
    build_ics_lines "01/04/2025" "Oma Lisa" "Picking up at 5pm" "me@example.com"
        (some "oma.lisa@example.com") (some "me@example.com") "u" "t" =
      some (ics_body ⟨2025, 4, 1⟩ "Oma Lisa" "Picking up at 5pm" "me@example.com"
        (some "oma.lisa@example.com") (some "me@example.com") "u" "t") ∧
    (ics_body ⟨2025, 4, 1⟩ "Oma Lisa" "Picking up at 5pm" "me@example.com"
        (some "oma.lisa@example.com") (some "me@example.com") "u" "t")[8]? =
      some ("DTSTART;VALUE=DATE:" ++ ymd ⟨2025, 4, 1⟩) ∧
    (ics_body ⟨2025, 4, 1⟩ "Oma Lisa" "Picking up at 5pm" "me@example.com"
        (some "oma.lisa@example.com") (some "me@example.com") "u" "t")[9]? =
      some ("DTEND;VALUE=DATE:" ++ ymd (nextDay ⟨2025, 4, 1⟩)) :=
  build_ics_event_end_is_start_plus_one "01/04/2025" "Oma Lisa"
    "Picking up at 5pm" "me@example.com" (some "oma.lisa@example.com")
    (some "me@example.com") "u" "t" ⟨2025, 4, 1⟩ rfl

/-- C1 counterexample: a row whose date string and caregiver name are
both non-empty but whose date string is unparseable is NOT skipped:
running the loop on such a row followed by a fully valid row yields no
effects at all and the abort flag — the `ValueError` raised inside
`build_ics_event` escapes the loop (only `sendmail` is guarded by a
`try`), so the subsequent valid row is never processed. -/
theorem parse_failure_fatal_cex :
    processRows
      ⟨[("Oma Lisa", "oma.lisa@example.com")], some "me@example.com",
        "org@example.com"⟩
      [⟨some "not-a-date", some "Opa Piet", none⟩,
       ⟨some "24/03/2025", some "Oma Lisa", some "note"⟩]
      [("u1", "t1"), ("u2", "t2")] [none, none] = ([], true) := rfl

/-- C1 (amended): a row whose date string and caregiver name are both
non-empty but whose date string is unparseable is fatal to the run: the
`ValueError` raised by `parse_date` inside `build_ics_event` is not
caught in the loop, so processing aborts at that row, no effect is
produced for it or for any subsequent row, and `smtp_client.quit()` is
never reached. -/
theorem unparseable_date_aborts_run (cfg : LoopCfg) (r : Row) (rs : List Row)
    (gens : List (String × String)) (sends : List (Option String))
    (hd : truthy r.datum = true) (ho : truthy r.oppas = true)
    (hp : parse_date (r.datum.getD "") = none) :
    processRows cfg (r :: rs) gens sends = ([], true) := by
  unfold processRows
  simp [hd, ho, build_ics_event, build_ics_lines, hp]

/-- Witness for the amended C1 at the row ("not-a-date", "Anne"). -/
theorem unparseable_date_aborts_run_witness :
    processRows ⟨[], none, "org@example.com"⟩
      [⟨some "not-a-date", some "Anne", none⟩] [] [] = ([], true) :=
  unparseable_date_aborts_run _ _ _ _ _ rfl rfl rfl

/-- C4: a row whose date field or caregiver-name field is absent or
empty contributes exactly one effect — the skip message — and nothing
else: no event is built, no mail is sent, and the remaining rows are
processed exactly as they would be on their own (same uuid and send
supplies). -/
theorem missing_fields_row_skipped (cfg : LoopCfg) (r : Row) (rs : List Row)
    (gens : List (String × String)) (sends : List (Option String))
    (h : truthy r.datum = false ∨ truthy r.oppas = false) :
    processRows cfg (r :: rs) gens sends =
      (Effect.log "Skipping row missing required fields"
         :: (processRows cfg rs gens sends).1,
       (processRows cfg rs gens sends).2) := by
  rcases h with h | h <;> simp only [processRows] <;> simp [h]

/-- Witness for C4 at a row with an empty caregiver name. -/
theorem missing_fields_row_skipped_witness :
    processRows ⟨[], none, "org@example.com"⟩
      [⟨some "24/03/2025", some "", none⟩] [] [] =
      ([Effect.log "Skipping row missing required fields"], false) :=
  (missing_fields_row_skipped ⟨[], none, "org@example.com"⟩
    ⟨some "24/03/2025", some "", none⟩ [] [] [] (Or.inr rfl)).trans rfl

/-- C5: when the default recipient address equals the resolved
caregiver address (and is non-empty), the built event lists that
address exactly once — attendee list is exactly the single caregiver
line — and the outbound recipient list is exactly that one address. -/
theorem duplicate_address_once (oppas_name a : String) (ha : a ≠ "") :
    attendee_lines oppas_name (some a) (some a) =
      [caregiverAttendee oppas_name a] ∧
    recipientsOf (some a) (some a) = [a] := by
  constructor
  · simp [attendee_lines, truthy, ha]
  · simp [recipientsOf, truthy, ha]

/-- Witness for C5 at the address "me@example.com". -/
theorem duplicate_address_once_witness :
    attendee_lines "Oma Lisa" (some "me@example.com") (some "me@example.com") =
      [caregiverAttendee "Oma Lisa" "me@example.com"] ∧
    recipientsOf (some "me@example.com") (some "me@example.com") =
      ["me@example.com"] :=
  duplicate_address_once "Oma Lisa" "me@example.com" (by decide)

/-- C6: for a row whose date parses, a caregiver name absent from the
email directory is not an error: the event is still built, and its
attendee section consists solely of the optional default-recipient
line; when the name is present (with a non-empty mapped address) the
mapped address appears as a caregiver attendee line of the built
event. -/
theorem missing_directory_entry_not_error
    (dir : List (String × String))
    (date_str oppas_name description organizer_email : String)
    (user_email : Option String) (uid dtstamp : String) (d : Date)
    (h : parse_date date_str = some d) :
    (pyDictGet dir oppas_name = none →
      build_ics_lines date_str oppas_name description organizer_email
          (pyDictGet dir oppas_name) user_email uid dtstamp =
        some (ics_body d oppas_name description organizer_email none
          user_email uid dtstamp) ∧
      attendee_lines oppas_name none user_email =
        (if truthy user_email then [userAttendee (user_email.getD "")] else [])) ∧
    (∀ a, pyDictGet dir oppas_name = some a → a ≠ "" →
      build_ics_lines date_str oppas_name description organizer_email
          (some a) user_email uid dtstamp =
        some (ics_body d oppas_name description organizer_email (some a)
          user_email uid dtstamp) ∧
      caregiverAttendee oppas_name a ∈
        ics_body d oppas_name description organizer_email (some a)
          user_email uid dtstamp) := by
  constructor
  · intro hnone
    constructor
    · simp only [build_ics_lines, hnone, h, Option.map_some']
    · cases user_email with
      | none => rfl
      | some u => simp [attendee_lines, truthy]
  · intro a _ hane
    constructor
    · simp only [build_ics_lines, h, Option.map_some']
    · simp [ics_body, attendee_lines, truthy, hane]

/-- Witness for C6: "Opa Piet" absent from a directory holding only
"Oma Lisa"; the event is still built, without a caregiver attendee. -/
theorem missing_directory_entry_not_error_witness :
    build_ics_lines "24/03/2025" "Opa Piet" "" "org@example.com"
        (pyDictGet [("Oma Lisa", "oma.lisa@example.com")] "Opa Piet")
        (some "me@example.com") "u" "t" =
      some (ics_body ⟨2025, 3, 24⟩ "Opa Piet" "" "org@example.com" none
        (some "me@example.com") "u" "t") ∧
    attendee_lines "Opa Piet" none (some "me@example.com") =
      (if truthy (some "me@example.com") then [userAttendee "me@example.com"]
       else []) :=
  (missing_directory_entry_not_error [("Oma Lisa", "oma.lisa@example.com")]
    "24/03/2025" "Opa Piet" "" "org@example.com" (some "me@example.com")
    "u" "t" ⟨2025, 3, 24⟩ rfl).1 rfl

/-- C7: a valid row for which both the caregiver address and the
default recipient are absent produces exactly one effect — the skip
report — and no send; no exception is raised and the remaining rows
are processed with the remaining supplies. -/
theorem no_recipients_skips_send (cfg : LoopCfg) (r : Row) (rs : List Row)
    (gens : List (String × String)) (sends : List (Option String))
    (hd : truthy r.datum = true) (ho : truthy r.oppas = true)
    (hp : (parse_date (r.datum.getD "")).isSome = true)
    (hb : truthy (pyDictGet cfg.email_map (r.oppas.getD "")) = false)
    (hu : truthy cfg.user_email = false) :
    processRows cfg (r :: rs) gens sends =
      (Effect.log ("No recipients for " ++ r.oppas.getD "" ++ "; skipping")
         :: (processRows cfg rs gens.tail sends).1,
       (processRows cfg rs gens.tail sends).2) := by
  obtain ⟨d, hd2⟩ := Option.isSome_iff_exists.mp hp
  simp only [processRows]
  simp [hd, ho, hb, hu, build_ics_event, build_ics_lines, hd2, recipientsOf]

/-- Witness for C7: "Opa Piet" with an empty directory and no
USER_EMAIL. -/
theorem no_recipients_skips_send_witness :
    processRows ⟨[], none, "org@example.com"⟩
      [⟨some "24/03/2025", some "Opa Piet", none⟩] [] [] =
      ([Effect.log "No recipients for Opa Piet; skipping"], false) :=
  (no_recipients_skips_send ⟨[], none, "org@example.com"⟩
    ⟨some "24/03/2025", some "Opa Piet", none⟩ [] [] [] rfl rfl rfl rfl
    rfl).trans rfl

/-- C8: a transport error in `sendmail` for a valid row is caught and
logged: the row contributes exactly the failure message, the loop does
not abort, and the remaining rows are processed with the remaining
supplies. -/
theorem transport_error_non_fatal (cfg : LoopCfg) (r : Row) (rs : List Row)
    (gens : List (String × String)) (sends : List (Option String)) (exc : String)
    (hd : truthy r.datum = true) (ho : truthy r.oppas = true)
    (hp : (parse_date (r.datum.getD "")).isSome = true)
    (hr : recipientsOf (pyDictGet cfg.email_map (r.oppas.getD ""))
        cfg.user_email ≠ []) :
    processRows cfg (r :: rs) gens (some exc :: sends) =
      (Effect.log ("Failed to send invite for " ++ r.oppas.getD "" ++ " on "
           ++ r.datum.getD "" ++ ": " ++ exc)
         :: (processRows cfg rs gens.tail sends).1,
       (processRows cfg rs gens.tail sends).2) := by
  obtain ⟨d, hd2⟩ := Option.isSome_iff_exists.mp hp
  simp only [processRows]
  simp [hd, ho, hd2, hr, build_ics_event, build_ics_lines]

/-- Witness for C8: the send for "Oma Lisa" raises; the failure is
logged and the loop terminates normally. -/
theorem transport_error_non_fatal_witness :
    processRows ⟨[("Oma Lisa", "oma.lisa@example.com")], none,
        "org@example.com"⟩
      [⟨some "24/03/2025", some "Oma Lisa", none⟩] [] [some "boom"] =
      ([Effect.log "Failed to send invite for Oma Lisa on 24/03/2025: boom"],
       false) :=
  (transport_error_non_fatal ⟨[("Oma Lisa", "oma.lisa@example.com")], none,
      "org@example.com"⟩
    ⟨some "24/03/2025", some "Oma Lisa", none⟩ [] [] [] "boom" rfl rfl rfl
    (by decide)).trans rfl

/-- C9 counterexample: `build_ics_event` is not reproducible from the
six call-site arguments alone: two calls with identical date string,
caregiver name, description, organizer, caregiver email and default
recipient produce different output, because each call interpolates a
freshly drawn `uuid.uuid4()` (and `utcnow()` stamp) into the UID and
DTSTAMP lines — here made explicit as the extra generator arguments. -/
theorem build_not_reproducible_cex :
    build_ics_event "24/03/2025" "Oma Lisa" "" "org@example.com" none none
        "uuid-1" "20250101T000000Z" ≠
      build_ics_event "24/03/2025" "Oma Lisa" "" "org@example.com" none none
        "uuid-2" "20250101T000000Z" := by decide

/-- C9 (amended): apart from the freshly generated UID and DTSTAMP
lines, `build_ics_event` is a deterministic function of its six
arguments and has no side effects: removing those two lines, the
output is identical across any two uuid/clock draws. -/
theorem build_deterministic_modulo_uid_dtstamp
    (date_str oppas_name description organizer_email : String)
    (babysitter_email user_email : Option String) (u1 t1 u2 t2 : String) :
    (build_ics_lines date_str oppas_name description organizer_email
        babysitter_email user_email u1 t1).map stripVolatile =
      (build_ics_lines date_str oppas_name description organizer_email
        babysitter_email user_email u2 t2).map stripVolatile := by
  cases hp : parse_date date_str
  · simp only [build_ics_lines, hp, Option.map_none']
  · simp only [build_ics_lines, hp, Option.map_some']
    rfl

/-- C10: with CSV_URL set and EMAIL_MAP set to a string that does not
decode as JSON, `main` raises the `ValueError` about EMAIL_MAP with an
empty effect trace: nothing is fetched, no SMTP session is opened and
no mail is sent — the run aborts during configuration. -/
theorem invalid_email_map_aborts_before_fetch (env : Env) (records : List Row)
    (gens : List (String × String)) (sends : List (Option String)) (s : String)
    (hc : truthy env.CSV_URL = true)
    (hm : env.EMAIL_MAP = some s) (hj : json_loads_obj s = none) :
    mainModel env records gens sends =
      ([], some (.valueError
        "EMAIL_MAP environment variable must be valid JSON")) := by
  unfold mainModel
  simp [hc, hm, hj]

/-- Witness for C10 at an ill-formed EMAIL_MAP value: a lone opening brace. -/
theorem invalid_email_map_aborts_before_fetch_witness :
    mainModel
      ⟨some "https://example.com/sheet.csv", none, some "\x7b", none, none,
        some "me@example.com", some "hunter2"⟩ [] [] [] =
      ([], some (.valueError
        "EMAIL_MAP environment variable must be valid JSON")) :=
  invalid_email_map_aborts_before_fetch
    ⟨some "https://example.com/sheet.csv", none, some "\x7b", none, none,
      some "me@example.com", some "hunter2"⟩ [] [] [] "\x7b" rfl rfl rfl
